import Mathlib

set_option maxRecDepth 16384

/-
Verification of the sagemaker-genai-hosting-examples notebooks.

The repository consists of three Jupyter notebooks:
* a DJL-Serving multi-LoRA notebook (first notebook of src/unnamed/part_000),
  which ships a custom inference handler `model.py` (generate_prompt,
  evaluate, load_model, register_adapter, handle) together with a
  serving.properties file, and orchestrates
  create_model / create_endpoint_config / create_endpoint / a describe_endpoint
  polling loop / invoke_endpoint / delete_endpoint + delete_endpoint_config;
* an LMI-vLLM multi-LoRA notebook (second notebook of src/unnamed/part_000)
  with the same polling loop and a full clean-up
  (delete_endpoint, delete_endpoint_config, delete_model);
* a function-calling notebook (deploy-llama3-functioncalling.ipynb) that uses
  the sagemaker SDK HuggingFaceModel.deploy / Predictor.predict API and sends
  messages-style request payloads.

This file gives a shallow embedding of the Python code of those notebooks:
pure functions become Lean functions, the module-global state of model.py is
passed explicitly, and calls into external libraries (transformers, torch,
djl_python, boto3) are oracles supplied through an `Env` record whose results
are `Except`-valued, so that exception propagation is observable.
-/

/-! ## Endpoint-status polling loop (both notebooks of part_000)

The Python loop is

  resp = sm_client.describe_endpoint(EndpointName=endpoint_name)
  status = resp["EndpointStatus"]
  while status == "Creating":
      time.sleep(60)
      resp = sm_client.describe_endpoint(EndpointName=endpoint_name)
      status = resp["EndpointStatus"]

`statuses k` is the EndpointStatus returned by the (k+1)-st describe_endpoint
call.  The embedding is fuel-indexed: `none` means the loop has not terminated
within `fuel` status checks. -/

structure PollResult where
  finalStatus : String
  describeCalls : Nat
  sleptSeconds : Nat
deriving DecidableEq

def pollLoopAux (statuses : Nat → String) : Nat → Nat → Nat → Option PollResult
  | 0, _, _ => none
  | fuel + 1, i, slept =>
    if statuses i = "Creating" then
      pollLoopAux statuses fuel (i + 1) (slept + 60)
    else
      some ⟨statuses i, i + 1, slept⟩

def waitForEndpointInService (fuel : Nat) (statuses : Nat → String) : Option PollResult :=
  pollLoopAux statuses fuel 0 0

/-! ## model.py of the first notebook -/

/-- Python truthiness of an optional string (`if input:`): None and the empty
string are falsy. -/
def strTruthy : Option String → Bool
  | none => false
  | some s => !s.isEmpty

/-- Fixed fragment of the with-input f-string template in generate_prompt,
up to the instruction interpolation. -/
def promptHead1 : String :=
  "Below is an instruction that describes a task, paired with an input that provides further context. \n        Write a response that appropriately completes the request. ### Instruction: "

/-- Fixed fragment of the with-input template between the instruction and the
input interpolations. -/
def promptMid1 : String := " ### Input: "

/-- Fixed tail of the with-input template. -/
def promptTail1 : String := " \n        ### Response:"

/-- Fixed fragment of the instruction-only f-string template up to the
instruction interpolation. -/
def promptHead2 : String :=
  "Below is an instruction that describes a task. Write a response that appropriately completes the \n        request.### Instruction: "

/-- Fixed tail of the instruction-only template. -/
def promptTail2 : String := " ### Response:"

/-- The f-string produced by generate_prompt's truthy branch. -/
def promptWithInput (instruction inputVal : String) : String :=
  promptHead1 ++ instruction ++ promptMid1 ++ inputVal ++ promptTail1

/-- The f-string produced by generate_prompt's falsy branch. -/
def promptInstructionOnly (instruction : String) : String :=
  promptHead2 ++ instruction ++ promptTail2

/-- model.py generate_prompt(instruction, input=None). -/
def generate_prompt (instruction : String) (input : Option String) : String :=
  if strTruthy input then promptWithInput instruction (input.getD "")
  else promptInstructionOnly instruction

/-- The prompt-list construction at the head of model.py evaluate:
`prompts = []` followed by `for inp in instruction: prompts.append(generate_prompt(inp, input))`. -/
def evaluatePrompts (instruction : List String) (input : Option String) : List String :=
  instruction.foldl (fun prompts inp => prompts ++ [generate_prompt inp input]) []

/-- The runtime value of the module-global `model` of model.py: either a bare
LlamaForCausalLM (`base`) or a PeftModel (`peft`) wrapping whatever value the
global held when PeftModel.from_pretrained was called (possibly None), with its
registered adapters as (name, src) pairs in registration order. -/
inductive PyModel where
  | base (modelId : Option String)
  | peft (inner : Option PyModel) (adapters : List (String × String))

/-- model.py register_adapter: `if isinstance(model, PeftModel):
model.load_adapter(src, name) else: model = PeftModel.from_pretrained(model, src, name)`.
The function takes and returns the module-global `model`. -/
def register_adapter (model : Option PyModel) (name src : String) : Option PyModel :=
  match model with
  | some (PyModel.peft inner adapters) => some (PyModel.peft inner (adapters ++ [(name, src)]))
  | other => some (PyModel.peft other [(name, src)])

/-- The LlamaTokenizer object; the only attribute model.py reads or writes is
pad_token. -/
structure Tokenizer where
  padToken : Option String
deriving DecidableEq

/-- Opaque payload standing for the tokenized batch (input_ids plus
attention_mask) produced by `tokenizer(prompts, return_tensors="pt", padding=True)`. -/
structure TokenBatch where
  payload : List String
deriving DecidableEq

/-- Opaque payload standing for the tensor returned by model.generate. -/
structure GenOutput where
  payload : List String
deriving DecidableEq

/-- GenerationConfig(num_beams=1, do_sample=False). -/
structure GenConfig where
  numBeams : Nat
  doSample : Bool
deriving DecidableEq

def genConfig : GenConfig := ⟨1, false⟩

/-- The keyword arguments model.py evaluate actually consumes from the
request's "parameters" object (`input=None, max_new_tokens=64`; the remaining
`**kwargs` are never read by the body). -/
structure EvalKwargs where
  input : Option String := none
  maxNewTokens : Nat := 64
deriving DecidableEq

/-- Python exceptions distinguished by the embedding: TypeError (raised when
None is iterated or called), ValueError (the class caught by the
function-calling notebook's role fallback), and any other SDK or library
exception. -/
inductive PyErr where
  | typeError
  | valueError
  | sdkError (msg : String)
deriving DecidableEq

/-- Oracles for the external libraries model.py calls into.  Each call may
raise (return `.error`). -/
structure Env where
  fromPretrainedModel : Option String → Except PyErr PyModel
  fromPretrainedTokenizer : Option String → Except PyErr Tokenizer
  tokenize : Tokenizer → List String → Except PyErr TokenBatch
  generate : PyModel → TokenBatch → List String → GenConfig → Nat → Except PyErr GenOutput
  batchDecode : Tokenizer → GenOutput → Except PyErr (List String)

/-- model.py load_model(model_id): from_pretrained for the model and the
tokenizer, then `if not tokenizer.pad_token: tokenizer.pad_token = '[PAD]'`. -/
def load_model (env : Env) (modelId : Option String) : Except PyErr (PyModel × Tokenizer) :=
  match env.fromPretrainedModel modelId with
  | Except.error e => Except.error e
  | Except.ok m =>
    match env.fromPretrainedTokenizer modelId with
    | Except.error e => Except.error e
    | Except.ok t =>
      let t := if strTruthy t.padToken then t else { t with padToken := some "[PAD]" }
      Except.ok (m, t)

/-- model.py evaluate(instruction, adapters, input=None, max_new_tokens=64, **kwargs).
The module globals `tokenizer` and `model` are passed explicitly; iterating or
calling a global that is still None raises TypeError, as in Python. -/
def evaluate (env : Env) (tokenizer : Option Tokenizer) (model : Option PyModel)
    (instruction : Option (List String)) (adapters : List String) (kw : EvalKwargs) :
    Except PyErr (List String) :=
  match instruction with
  | none => Except.error PyErr.typeError
  | some instrList =>
    match tokenizer with
    | none => Except.error PyErr.typeError
    | some tok =>
      match env.tokenize tok (evaluatePrompts instrList kw.input) with
      | Except.error e => Except.error e
      | Except.ok batch =>
        match model with
        | none => Except.error PyErr.typeError
        | some mdl =>
          match env.generate mdl batch adapters genConfig kw.maxNewTokens with
          | Except.error e => Except.error e
          | Except.ok genOut => env.batchDecode tok genOut

/-- The JSON request body as read by handle: `json_inputs.get("inputs")`,
`json_inputs.get("adapters", [])`, `json_inputs.get("parameters", {})`. -/
structure ReqJson where
  inputs : Option (List String)
  adapters : Option (List String)
  parameters : Option EvalKwargs

/-- The djl_python Input object as used by handle: its properties map, whether
it is the empty initialization request, and the outcome of get_as_json. -/
structure Request where
  properties : List (String × String)
  isEmpty : Bool
  body : Except PyErr ReqJson

/-- The module globals of model.py (`model = None`, `tokenizer = None`). -/
structure GlobalState where
  model : Option PyModel
  tokenizer : Option Tokenizer

/-- Python dict .get(key): the value under the key, if present. -/
def dictGet (props : List (String × String)) (key : String) : Option String :=
  match props with
  | [] => none
  | (k, v) :: rest => if k = key then some v else dictGet rest key

/-- The part of model.py handle after the `if not model:` load block:
the empty-input early return, get_as_json, the defaulted field reads, the
evaluate call and the Output().add_as_json(outputs) return value (`none`
models Python's `return None`). -/
def handleAfterLoad (env : Env) (st : GlobalState) (req : Request) :
    Except PyErr (GlobalState × Option (List String)) :=
  if req.isEmpty then Except.ok (st, none)
  else
    match req.body with
    | Except.error e => Except.error e
    | Except.ok json =>
      match evaluate env st.tokenizer st.model json.inputs
          (json.adapters.getD []) (json.parameters.getD {}) with
      | Except.error e => Except.error e
      | Except.ok outputs => Except.ok (st, some outputs)

/-- model.py handle(inputs).  `if not model:` loads the base model and
tokenizer from properties["model_id"] before anything else; the result pairs
the updated globals with the Python return value. -/
def handle (env : Env) (st : GlobalState) (req : Request) :
    Except PyErr (GlobalState × Option (List String)) :=
  if st.model.isNone then
    match load_model env (dictGet req.properties "model_id") with
    | Except.error e => Except.error e
    | Except.ok (m, t) => handleAfterLoad env { model := some m, tokenizer := some t } req
  else
    handleAfterLoad env st req

/-! ## The execution-role fallback of the function-calling notebook

  try:
      role = sagemaker.get_execution_role()
  except ValueError:
      iam = boto3.client('iam')
      role = iam.get_role(RoleName='sagemaker_execution_role')['Role']['Arn']

The two SDK calls are passed in as their `Except` outcomes. -/
def resolveRole (getExecutionRole : Except PyErr String) (iamGetRole : Except PyErr String) :
    Except PyErr String :=
  match getExecutionRole with
  | Except.ok r => Except.ok r
  | Except.error PyErr.valueError => iamGetRole
  | Except.error e => Except.error e

/-! ## Substring occurrence, for the "### Input:" section of the prompts -/

/-- Whether the pattern occurs as a contiguous substring of the list:
some suffix of the list starts with the pattern. -/
def listContains (pat : List Char) : List Char → Bool
  | [] => pat.isEmpty
  | c :: rest => List.isPrefixOf pat (c :: rest) || listContains pat rest

/-- Whether the string contains the text of the "### Input:" section marker. -/
def containsInputMarker (s : String) : Bool :=
  listContains ("### Input:".data) s.data

/-- The first 46 characters of the with-input template, ending in the comma
at which the two generate_prompt templates first differ. -/
def commaPrefix : String := "Below is an instruction that describes a task,"

/-- Whether a string starts with `commaPrefix`; the with-input template does,
the instruction-only template does not. -/
def startsWithCommaPrefix (s : String) : Bool :=
  List.isPrefixOf commaPrefix.data s.data

/-! ## The cloud API orchestration traces of the three notebooks

Each notebook is a straight-line sequence of cloud API calls; the only
runtime-dependent part is how many times describe_endpoint is polled, so each
trace is parameterized by that number.  The function-calling notebook performs
its create calls and its readiness wait inside the sagemaker SDK methods
HuggingFaceModel.deploy (create_model, create_endpoint_config, create_endpoint,
then poll until InService) and Predictor.delete_endpoint (which by default also
deletes the endpoint config); those SDK calls are expanded into the actions
they issue. -/

inductive ApiAction where
  | createModel
  | createEndpointConfig
  | createEndpoint
  | describeEndpoint
  | invokeEndpoint
  | deleteEndpoint
  | deleteEndpointConfig
  | deleteModel
deriving DecidableEq

/-- The orchestration phase of an action: create 0, wait 1, invoke 2, delete 3. -/
def phase : ApiAction → Nat
  | ApiAction.createModel => 0
  | ApiAction.createEndpointConfig => 0
  | ApiAction.createEndpoint => 0
  | ApiAction.describeEndpoint => 1
  | ApiAction.invokeEndpoint => 2
  | ApiAction.deleteEndpoint => 3
  | ApiAction.deleteEndpointConfig => 3
  | ApiAction.deleteModel => 3

/-- The create calls of the first (DJL multi-LoRA) notebook. -/
def nb1Creates : List ApiAction :=
  [ApiAction.createModel, ApiAction.createEndpointConfig, ApiAction.createEndpoint]

/-- After the polling loop, the first notebook invokes the endpoint twice and
then deletes the endpoint and the endpoint config (it never deletes the model). -/
def nb1Post : List ApiAction :=
  [ApiAction.invokeEndpoint, ApiAction.invokeEndpoint,
   ApiAction.deleteEndpoint, ApiAction.deleteEndpointConfig]

/-- The cloud API trace of the first notebook when its polling loop iterates
`p` times (the initial describe_endpoint plus `p` in-loop polls). -/
def nb1Trace (p : Nat) : List ApiAction :=
  nb1Creates ++ List.replicate (p + 1) ApiAction.describeEndpoint ++ nb1Post

/-- The create calls of the second (LMI vLLM multi-LoRA) notebook. -/
def nb2Creates : List ApiAction :=
  [ApiAction.createModel, ApiAction.createEndpointConfig, ApiAction.createEndpoint]

/-- After its polling loop, the second notebook invokes the endpoint once and
deletes the endpoint, the endpoint config and the model. -/
def nb2Post : List ApiAction :=
  [ApiAction.invokeEndpoint,
   ApiAction.deleteEndpoint, ApiAction.deleteEndpointConfig, ApiAction.deleteModel]

/-- The cloud API trace of the second notebook with `p` in-loop polls. -/
def nb2Trace (p : Nat) : List ApiAction :=
  nb2Creates ++ List.replicate (p + 1) ApiAction.describeEndpoint ++ nb2Post

/-- The create calls issued inside HuggingFaceModel.deploy in the
function-calling notebook. -/
def fcCreates : List ApiAction :=
  [ApiAction.createModel, ApiAction.createEndpointConfig, ApiAction.createEndpoint]

/-- After deploy returns, the function-calling notebook calls llm.predict twice
and then llm.delete_model() and llm.delete_endpoint() (the latter also deletes
the endpoint config per the SDK default). -/
def fcPost : List ApiAction :=
  [ApiAction.invokeEndpoint, ApiAction.invokeEndpoint,
   ApiAction.deleteModel, ApiAction.deleteEndpoint, ApiAction.deleteEndpointConfig]

/-- The cloud API trace of the function-calling notebook with `p` readiness
polls inside deploy. -/
def fcTrace (p : Nat) : List ApiAction :=
  fcCreates ++ List.replicate p ApiAction.describeEndpoint ++ fcPost

/-- The kinds of cloud resources the notebooks create and delete. -/
inductive ResourceKind where
  | model
  | endpointConfig
  | endpoint
deriving DecidableEq

/-- The resources created along a trace, in order. -/
def createdResources (t : List ApiAction) : List ResourceKind :=
  t.filterMap fun a =>
    match a with
    | ApiAction.createModel => some ResourceKind.model
    | ApiAction.createEndpointConfig => some ResourceKind.endpointConfig
    | ApiAction.createEndpoint => some ResourceKind.endpoint
    | _ => none

/-- The resources deleted along a trace, in order. -/
def deletedResources (t : List ApiAction) : List ResourceKind :=
  t.filterMap fun a =>
    match a with
    | ApiAction.deleteModel => some ResourceKind.model
    | ApiAction.deleteEndpointConfig => some ResourceKind.endpointConfig
    | ApiAction.deleteEndpoint => some ResourceKind.endpoint
    | _ => none

/-! ## The JSON request bodies the notebooks send to the inference service -/

inductive JValue where
  | jnull
  | jbool (b : Bool)
  | jnum (q : ℚ)
  | jstr (s : String)
  | jarr (elems : List JValue)
  | jobj (fields : List (String × JValue))

/-- First-match lookup of a key among an object's fields. -/
def lookupField : List (String × JValue) → String → Option JValue
  | [], _ => none
  | (k, v) :: rest, key => if k = key then some v else lookupField rest key

/-- The value of a field of a JSON object, if the value is an object and has
the field. -/
def getField (v : JValue) (key : String) : Option JValue :=
  match v with
  | JValue.jobj fs => lookupField fs key
  | _ => none

/-- Whether a JSON value is an object carrying both a role and a content field. -/
def isRoleContentObj (v : JValue) : Bool :=
  (getField v "role").isSome && (getField v "content").isSome

/-- Whether a JSON value is an array of role/content message objects. -/
def isMessagesArray : JValue → Bool
  | JValue.jarr xs => xs.all isRoleContentObj
  | _ => false

/-- Whether a JSON value is an array of strings. -/
def isStringArray : JValue → Bool
  | JValue.jarr xs =>
    xs.all fun x =>
      match x with
      | JValue.jstr _ => true
      | _ => false
  | _ => false

/-- Whether a JSON value is an object carrying all of the generation-parameter
fields the spec names: top_p, temperature, max_tokens, stop and adapters. -/
def isGenParamsObj : JValue → Bool
  | JValue.jobj fs =>
    (lookupField fs "top_p").isSome && (lookupField fs "temperature").isSome
      && (lookupField fs "max_tokens").isSome && (lookupField fs "stop").isSome
      && (lookupField fs "adapters").isSome
  | _ => false

/-- Modelled from the spec: the request schema section 6 describes for the
external inference service, read as a conjunction over one request body — a
messages array whose elements have role and content fields, together with a
generation-parameters object whose fields include top_p, temperature,
max_tokens, stop and adapters. -/
def conformsToSpecSchema : JValue → Bool
  | JValue.jobj fs =>
    (match lookupField fs "messages" with
     | some m => isMessagesArray m
     | none => false)
      && fs.any fun kv => isGenParamsObj kv.2
  | _ => false

/-- The shape of the LoRA notebooks' invoke_endpoint bodies: an inputs array of
strings and a top-level adapters array of strings, and no messages field. -/
def loraRequestSchema : JValue → Bool
  | JValue.jobj fs =>
    (match lookupField fs "inputs" with
     | some v => isStringArray v
     | none => false)
      && (match lookupField fs "adapters" with
          | some v => isStringArray v
          | none => false)
      && (lookupField fs "messages").isNone
  | _ => false

/-- The shape of the function-calling notebook's predict bodies: a messages
array of role/content objects, the generation parameters model, top_p,
temperature and max_tokens spread at the top level of the body, and no
adapters field. -/
def messagesRequestSchema : JValue → Bool
  | JValue.jobj fs =>
    (match lookupField fs "messages" with
     | some m => isMessagesArray m
     | none => false)
      && (lookupField fs "model").isSome && (lookupField fs "top_p").isSome
      && (lookupField fs "temperature").isSome && (lookupField fs "max_tokens").isSome
      && (lookupField fs "adapters").isNone
  | _ => false

/-- Whether no field value of the body is an object containing an adapters
field (adapters is never nested inside a generation-parameters object). -/
def noNestedAdapters : JValue → Bool
  | JValue.jobj fs =>
    fs.all fun kv =>
      match kv.2 with
      | JValue.jobj gs => (lookupField gs "adapters").isNone
      | _ => true
  | _ => false

/-- Body of the first invoke_endpoint call of the first notebook. -/
def nb1InvokeBody1 : JValue :=
  JValue.jobj
    [("inputs", JValue.jarr
        [JValue.jstr "Tell me about Alpacas",
         JValue.jstr "Invente uma desculpa criativa pra dizer que não preciso ir à festa.",
         JValue.jstr "Tell me about AWS"]),
     ("adapters", JValue.jarr
        [JValue.jstr "eng_alpaca", JValue.jstr "portuguese_alpaca", JValue.jstr "eng_alpaca"])]

/-- Body of the second invoke_endpoint call of the first notebook. -/
def nb1InvokeBody2 : JValue :=
  JValue.jobj
    [("inputs", JValue.jarr
        [JValue.jstr "Tell me about Alpacas", JValue.jstr "Invente uma desculpa criativa"]),
     ("adapters", JValue.jarr
        [JValue.jstr "eng_alpaca", JValue.jstr "portuguese_alpaca"])]

/-- Body of the invoke_endpoint call of the second notebook. -/
def nb2InvokeBody : JValue :=
  JValue.jobj
    [("inputs", JValue.jarr
        [JValue.jstr "Piensa en una excusa creativa para decir que no necesito ir a la fiesta."]),
     ("adapters", JValue.jarr [JValue.jstr "es"])]

/-- Body of the first llm.predict call of the function-calling notebook:
the dict literal expression is the messages key followed by the spread of the
parameters dict (model, top_p, temperature, max_tokens; stop is commented out). -/
def fcPredictBody1 : JValue :=
  JValue.jobj
    [("messages", JValue.jarr
        [JValue.jobj [("role", JValue.jstr "system"),
                      ("content", JValue.jstr "You are a helpful assistant.")],
         JValue.jobj [("role", JValue.jstr "user"),
                      ("content", JValue.jstr "What is deep learning?")]]),
     ("model", JValue.jstr "Trelis/Meta-Llama-3-8B-Instruct-function-calling"),
     ("top_p", JValue.jnum (6 / 10)),
     ("temperature", JValue.jnum (9 / 10)),
     ("max_tokens", JValue.jnum 512)]

/-- Body of the second llm.predict call of the function-calling notebook
(its parameters dict also carries the stop list). -/
def fcPredictBody2 : JValue :=
  JValue.jobj
    [("messages", JValue.jarr
        [JValue.jobj [("role", JValue.jstr "function_metadata"),
                      ("content", JValue.jstr "FUNCTION_METADATA")],
         JValue.jobj [("role", JValue.jstr "function_call"),
                      ("content", JValue.jstr "\x7b\n    \"name\": \"get_current_weather\",\n    \"arguments\": \x7b\n        \"city\": \"London\"\n    \x7d\n\x7d")],
         JValue.jobj [("role", JValue.jstr "user"),
                      ("content", JValue.jstr "What is the current weather in London?")]]),
     ("model", JValue.jstr "Trelis/Meta-Llama-3-8B-Instruct-function-calling"),
     ("top_p", JValue.jnum (6 / 10)),
     ("temperature", JValue.jnum (9 / 10)),
     ("max_tokens", JValue.jnum 512),
     ("stop", JValue.jarr [JValue.jstr "<|eot_id|>"])]

/-- Every inference request body any of the three notebooks sends. -/
def allRequestBodies : List JValue :=
  [nb1InvokeBody1, nb1InvokeBody2, nb2InvokeBody, fcPredictBody1, fcPredictBody2]

/-! ## Concrete fixtures used to instantiate the theorems -/

/-- An oracle environment in which every external call succeeds and threads
its payload through unchanged. -/
def envEcho : Env where
  fromPretrainedModel := fun modelId => Except.ok (PyModel.base modelId)
  fromPretrainedTokenizer := fun _ => Except.ok ⟨some "</s>"⟩
  tokenize := fun _ prompts => Except.ok ⟨prompts⟩
  generate := fun _ batch _ _ _ => Except.ok ⟨batch.payload⟩
  batchDecode := fun _ genOut => Except.ok genOut.payload

/-- An environment whose tokenizer call raises. -/
def envTokenizeFails : Env :=
  { envEcho with tokenize := fun _ _ => Except.error (PyErr.sdkError "CUDA error") }

/-- An environment whose LlamaForCausalLM.from_pretrained call raises. -/
def envModelLoadFails : Env :=
  { envEcho with fromPretrainedModel := fun _ => Except.error (PyErr.sdkError "OSError") }

/-- The initial module globals of model.py (both None). -/
def st0 : GlobalState := { model := none, tokenizer := none }

/-- Module globals after a base model and tokenizer have been loaded. -/
def st1 : GlobalState :=
  { model := some (PyModel.base (some "huggyllama/llama-7b")),
    tokenizer := some ⟨some "[PAD]"⟩ }

/-- The empty initialization request DJL sends at start-up. -/
def req0 : Request :=
  { properties := [("model_id", "huggyllama/llama-7b")],
    isEmpty := true,
    body := Except.error (PyErr.sdkError "no content") }

/-- A genuine inference request. -/
def req1 : Request :=
  { properties := [("model_id", "huggyllama/llama-7b")],
    isEmpty := false,
    body := Except.ok ⟨some ["Tell me about Alpacas"], some ["eng_alpaca"], none⟩ }

/-- A status sequence whose first two polls return Creating and which then
returns InService. -/
def statuses0 : Nat → String := fun n => if n < 2 then "Creating" else "InService"

/-! ## Lemmas about the polling loop -/

lemma pollLoopAux_exit (statuses : Nat → String) :
    ∀ (d fuel i slept : Nat), (∀ k, k < d → statuses (i + k) = "Creating") →
      statuses (i + d) ≠ "Creating" → d < fuel →
      pollLoopAux statuses fuel i slept
        = some ⟨statuses (i + d), i + d + 1, slept + 60 * d⟩ := by
  intro d
  induction d with
  | zero =>
    intro fuel i slept _ hexit hfuel
    cases fuel with
    | zero => omega
    | succ f =>
      simp only [Nat.add_zero] at hexit
      simp [pollLoopAux, hexit]
  | succ d ih =>
    intro fuel i slept hall hexit hfuel
    cases fuel with
    | zero => omega
    | succ f =>
      have h0 : statuses i = "Creating" := by
        have := hall 0 (Nat.succ_pos d)
        simpa using this
      simp only [pollLoopAux, h0, if_pos]
      have hall' : ∀ k, k < d → statuses (i + 1 + k) = "Creating" := by
        intro k hk
        have := hall (k + 1) (Nat.succ_lt_succ hk)
        have harg : i + (k + 1) = i + 1 + k := by omega
        rwa [harg] at this
      have hexit' : statuses (i + 1 + d) ≠ "Creating" := by
        have harg : i + 1 + d = i + (d + 1) := by omega
        rwa [harg]
      have := ih f (i + 1) (slept + 60) hall' hexit' (Nat.lt_of_succ_lt_succ hfuel)
      rw [this]
      have harg : i + 1 + d = i + (d + 1) := by omega
      have hslept : slept + 60 + 60 * d = slept + 60 * (d + 1) := by ring
      rw [harg, hslept]

lemma pollLoopAux_running (statuses : Nat → String) :
    ∀ (fuel i slept : Nat), (∀ k, k < fuel → statuses (i + k) = "Creating") →
      pollLoopAux statuses fuel i slept = none := by
  intro fuel
  induction fuel with
  | zero => intro i slept _; rfl
  | succ f ih =>
    intro i slept hall
    have h0 : statuses i = "Creating" := by
      have := hall 0 (Nat.succ_pos f)
      simpa using this
    simp only [pollLoopAux, h0, if_pos]
    apply ih
    intro k hk
    have := hall (k + 1) (Nat.succ_lt_succ hk)
    have harg : i + (k + 1) = i + 1 + k := by omega
    rwa [harg] at this

/-- C1: the endpoint-readiness wait in both part_000 notebooks is a polling
loop that sleeps a fixed 60 seconds between describe_endpoint calls, keeps
looping exactly while the returned EndpointStatus is "Creating", and exits at
the first poll returning any other status; if the status leaves "Creating" at
poll N (counting from 0), the loop terminates with that status after N+1
describe_endpoint calls and 60*N seconds of sleep, and it has not terminated
at any earlier fuel bound. -/
theorem polling_loop_first_exit (statuses : Nat → String) (N : Nat)
    (hBefore : ∀ k, k < N → statuses k = "Creating")
    (hExit : statuses N ≠ "Creating") :
    (∀ fuel, N < fuel →
      waitForEndpointInService fuel statuses = some ⟨statuses N, N + 1, 60 * N⟩)
    ∧ (∀ fuel, fuel ≤ N → waitForEndpointInService fuel statuses = none) := by
  constructor
  · intro fuel hfuel
    unfold waitForEndpointInService
    have := pollLoopAux_exit statuses N fuel 0 0
      (by intro k hk; simpa using hBefore k hk) (by simpa using hExit) hfuel
    simpa using this
  · intro fuel hfuel
    unfold waitForEndpointInService
    apply pollLoopAux_running
    intro k hk
    simpa using hBefore k (lt_of_lt_of_le hk hfuel)

/-- C1 witness: with two Creating polls followed by InService, the loop exits
at the third describe_endpoint call having slept 120 seconds, and has not
exited after only two status checks. -/
theorem polling_loop_first_exit_witness :
    waitForEndpointInService 3 statuses0 = some ⟨"InService", 3, 120⟩
    ∧ waitForEndpointInService 2 statuses0 = none := by
  have h := polling_loop_first_exit statuses0 2 (by decide) (by decide)
  exact ⟨h.1 3 (by decide), h.2 2 (by decide)⟩

/-! ## Lemmas about register_adapter -/

lemma foldl_register_adapter_peft :
    ∀ (cs : List (String × String)) (inner : Option PyModel) (adapters : List (String × String)),
      List.foldl (fun st p => register_adapter st p.1 p.2)
          (some (PyModel.peft inner adapters)) cs
        = some (PyModel.peft inner (adapters ++ cs)) := by
  intro cs
  induction cs with
  | nil => intro inner adapters; simp
  | cons c cs ih =>
    intro inner adapters
    simp only [List.foldl_cons]
    have hstep : register_adapter (some (PyModel.peft inner adapters)) c.1 c.2
        = some (PyModel.peft inner (adapters ++ [(c.1, c.2)])) := rfl
    rw [hstep, ih]
    simp

/-- C9: starting from the loaded base model, the first register_adapter call
wraps it in a PeftModel carrying that adapter, and each later call only
appends an adapter to the existing PeftModel, so after any nonempty sequence
of calls the global model is a single PeftModel wrapping the base model once
and carrying exactly the registered (name, src) pairs in order. -/
theorem register_adapter_single_wrap (modelId : Option String)
    (c : String × String) (cs : List (String × String)) :
    List.foldl (fun st p => register_adapter st p.1 p.2)
        (some (PyModel.base modelId)) (c :: cs)
      = some (PyModel.peft (some (PyModel.base modelId)) (c :: cs))
    ∧ (∀ inner adapters n s,
        register_adapter (some (PyModel.peft inner adapters)) n s
          = some (PyModel.peft inner (adapters ++ [(n, s)])))
    ∧ register_adapter (some (PyModel.base modelId)) c.1 c.2
        = some (PyModel.peft (some (PyModel.base modelId)) [c]) := by
  refine ⟨?_, fun inner adapters n s => rfl, rfl⟩
  simp only [List.foldl_cons]
  have hstep : register_adapter (some (PyModel.base modelId)) c.1 c.2
      = some (PyModel.peft (some (PyModel.base modelId)) [(c.1, c.2)]) := rfl
  rw [hstep, foldl_register_adapter_peft]
  simp

/-! ## Lemmas about the orchestration traces -/

lemma pairwise_le_replicate (n m : Nat) :
    (List.replicate n m).Pairwise (· ≤ ·) := by
  induction n with
  | zero => simp
  | succ k ih =>
    rw [List.replicate_succ]
    refine List.Pairwise.cons ?_ ih
    intro b hb
    rw [List.eq_of_mem_replicate hb]

lemma pairwise_le_blocks (xs ys : List Nat) (n m : Nat)
    (hxs : xs.Pairwise (· ≤ ·)) (hys : ys.Pairwise (· ≤ ·))
    (hxm : ∀ x ∈ xs, x ≤ m) (hmy : ∀ y ∈ ys, m ≤ y) :
    (xs ++ List.replicate n m ++ ys).Pairwise (· ≤ ·) := by
  rw [List.pairwise_append]
  refine ⟨?_, hys, ?_⟩
  · rw [List.pairwise_append]
    refine ⟨hxs, pairwise_le_replicate n m, ?_⟩
    intro a ha b hb
    rw [List.eq_of_mem_replicate hb]
    exact hxm a ha
  · intro a ha b hb
    rcases List.mem_append.mp ha with h | h
    · exact le_trans (hxm a h) (hmy b hb)
    · rw [List.eq_of_mem_replicate h]
      exact hmy b hb

/-- C3: each notebook's cloud API trace is phase-monotone: every create call
precedes every describe_endpoint poll, every poll precedes every
invoke_endpoint, and every invoke_endpoint precedes every delete call —
regardless of how many times the readiness loop polls.  In particular no
invocation is issued before the readiness wait completes and no delete is
issued before the invocations. -/
theorem orchestration_phase_order (p q r : Nat) :
    ((nb1Trace p).map phase).Pairwise (· ≤ ·)
    ∧ ((nb2Trace q).map phase).Pairwise (· ≤ ·)
    ∧ ((fcTrace r).map phase).Pairwise (· ≤ ·) := by
  refine ⟨?_, ?_, ?_⟩
  · unfold nb1Trace
    simp only [List.map_append, List.map_replicate]
    exact pairwise_le_blocks _ _ _ _ (by decide) (by decide) (by decide) (by decide)
  · unfold nb2Trace
    simp only [List.map_append, List.map_replicate]
    exact pairwise_le_blocks _ _ _ _ (by decide) (by decide) (by decide) (by decide)
  · unfold fcTrace
    simp only [List.map_append, List.map_replicate]
    exact pairwise_le_blocks _ _ _ _ (by decide) (by decide) (by decide) (by decide)

lemma filterMap_replicate_describe {f : ApiAction → Option ResourceKind}
    (h : f ApiAction.describeEndpoint = none) (n : Nat) :
    List.filterMap f (List.replicate n ApiAction.describeEndpoint) = [] := by
  induction n with
  | zero => rfl
  | succ k ih => rw [List.replicate_succ, List.filterMap_cons, h, ih]

/-- C5 counterexample: the first notebook creates a model but its clean-up
cell deletes only the endpoint and the endpoint config, so the created model
is never deleted (shown on a run whose loop polled seven times). -/
theorem cleanup_model_never_deleted :
    ResourceKind.model ∈ createdResources (nb1Trace 7)
    ∧ ResourceKind.model ∉ deletedResources (nb1Trace 7) := by
  decide

/-- C5 amended: the second and function-calling notebooks delete every
resource kind they create, while the first notebook creates a model, an
endpoint config and an endpoint but deletes only the endpoint and the
endpoint config. -/
theorem cleanup_coverage (p q r : Nat) :
    createdResources (nb1Trace p)
      = [ResourceKind.model, ResourceKind.endpointConfig, ResourceKind.endpoint]
    ∧ deletedResources (nb1Trace p)
      = [ResourceKind.endpoint, ResourceKind.endpointConfig]
    ∧ ((createdResources (nb2Trace q)).all
        fun k => (deletedResources (nb2Trace q)).contains k) = true
    ∧ ((createdResources (fcTrace r)).all
        fun k => (deletedResources (fcTrace r)).contains k) = true := by
  have hc1 : createdResources (nb1Trace p)
      = [ResourceKind.model, ResourceKind.endpointConfig, ResourceKind.endpoint] := by
    unfold createdResources nb1Trace
    rw [List.filterMap_append, List.filterMap_append, filterMap_replicate_describe rfl]
    rfl
  have hd1 : deletedResources (nb1Trace p)
      = [ResourceKind.endpoint, ResourceKind.endpointConfig] := by
    unfold deletedResources nb1Trace
    rw [List.filterMap_append, List.filterMap_append, filterMap_replicate_describe rfl]
    rfl
  have hc2 : createdResources (nb2Trace q)
      = [ResourceKind.model, ResourceKind.endpointConfig, ResourceKind.endpoint] := by
    unfold createdResources nb2Trace
    rw [List.filterMap_append, List.filterMap_append, filterMap_replicate_describe rfl]
    rfl
  have hd2 : deletedResources (nb2Trace q)
      = [ResourceKind.endpoint, ResourceKind.endpointConfig, ResourceKind.model] := by
    unfold deletedResources nb2Trace
    rw [List.filterMap_append, List.filterMap_append, filterMap_replicate_describe rfl]
    rfl
  have hc3 : createdResources (fcTrace r)
      = [ResourceKind.model, ResourceKind.endpointConfig, ResourceKind.endpoint] := by
    unfold createdResources fcTrace
    rw [List.filterMap_append, List.filterMap_append, filterMap_replicate_describe rfl]
    rfl
  have hd3 : deletedResources (fcTrace r)
      = [ResourceKind.model, ResourceKind.endpoint, ResourceKind.endpointConfig] := by
    unfold deletedResources fcTrace
    rw [List.filterMap_append, List.filterMap_append, filterMap_replicate_describe rfl]
    rfl
  rw [hc1, hd1, hc2, hd2, hc3, hd3]
  exact ⟨rfl, rfl, by decide, by decide⟩

/-- C2 counterexample: the body of the first invoke_endpoint call of the
first notebook does not conform to the schema the spec gives (it has no
messages array at all and no generation-parameters object; its adapters field
is a top-level array), so not every request body conforms. -/
theorem request_schema_spec_violation :
    conformsToSpecSchema nb1InvokeBody1 = false := by
  decide

/-- C2 amended: no request body the notebooks send conforms to the combined
schema of a messages array plus a generation-parameters object carrying
top_p, temperature, max_tokens, stop and adapters.  Instead, each body is of
one of two shapes: the LoRA notebooks' bodies carry an inputs string-array and
a top-level adapters string-array and no messages field, and the
function-calling notebook's bodies carry a messages array of role/content
objects with the generation parameters (model, top_p, temperature, max_tokens,
and in its second request stop) spread at the top level and no adapters field;
in no body is an adapters field nested inside an object. -/
theorem request_schema_actual :
    (allRequestBodies.all fun v => !conformsToSpecSchema v) = true
    ∧ ([nb1InvokeBody1, nb1InvokeBody2, nb2InvokeBody].all loraRequestSchema) = true
    ∧ ([fcPredictBody1, fcPredictBody2].all messagesRequestSchema) = true
    ∧ (allRequestBodies.all noNestedAdapters) = true := by
  refine ⟨?_, ?_, ?_, ?_⟩ <;> decide

/-! ## Lemmas about the prompt templates -/

lemma foldl_append_singleton_eq_map (g : String → String) :
    ∀ (l acc : List String),
      l.foldl (fun ps i => ps ++ [g i]) acc = acc ++ l.map g := by
  intro l
  induction l with
  | nil => intro acc; simp
  | cons x xs ih => intro acc; simp [ih]

lemma evaluatePrompts_eq_map (l : List String) (input : Option String) :
    evaluatePrompts l input = l.map fun ins => generate_prompt ins input := by
  unfold evaluatePrompts
  rw [foldl_append_singleton_eq_map]
  simp

lemma nil_isPrefixOf (l : List Char) :
    List.isPrefixOf ([] : List Char) l = true := by
  cases l <;> rfl

lemma isPrefixOf_append_self : ∀ (p rest : List Char),
    List.isPrefixOf p (p ++ rest) = true := by
  intro p rest
  induction p with
  | nil => rw [List.nil_append]; exact nil_isPrefixOf rest
  | cons c p ih => simp [List.isPrefixOf, List.append_eq, ih]

lemma listContains_cons (p : List Char) (c : Char) (l : List Char) :
    listContains p (c :: l) = (List.isPrefixOf p (c :: l) || listContains p l) := rfl

lemma listContains_append_left (p ys : List Char) (h : listContains p ys = true) :
    ∀ xs, listContains p (xs ++ ys) = true := by
  intro xs
  induction xs with
  | nil => simpa using h
  | cons x xs ih =>
    rw [List.cons_append, listContains_cons, ih]
    simp

lemma listContains_of_isPrefixOf (p s : List Char) (h : List.isPrefixOf p s = true) :
    listContains p s = true := by
  cases s with
  | nil =>
    cases p with
    | nil => rfl
    | cons a as => simp [List.isPrefixOf] at h
  | cons c rest =>
    rw [listContains_cons, h]
    simp

lemma listContains_append_middle (p xs zs : List Char) :
    listContains p (xs ++ (p ++ zs)) = true := by
  apply listContains_append_left
  exact listContains_of_isPrefixOf _ _ (isPrefixOf_append_self p zs)

lemma containsInputMarker_withInput (ins v : String) :
    containsInputMarker (promptWithInput ins v) = true := by
  have key : (promptWithInput ins v).data
      = (promptHead1.data ++ (ins.data ++ [' ']))
        ++ ("### Input:".data ++ ([' '] ++ (v.data ++ promptTail1.data))) := by
    have hmid : promptMid1.data = ([' '] ++ ("### Input:".data ++ [' '])) := by decide
    simp [promptWithInput, String.data_append, hmid, List.append_assoc]
  unfold containsInputMarker
  rw [key]
  exact listContains_append_middle _ _ _

lemma instructionOnly_no_marker :
    containsInputMarker (promptInstructionOnly "") = false := by
  decide

lemma isPrefixOf_append_of_le (p : List Char) :
    ∀ (q r : List Char), p.length ≤ q.length →
      List.isPrefixOf p (q ++ r) = List.isPrefixOf p q := by
  induction p with
  | nil => intro q r _; rw [nil_isPrefixOf, nil_isPrefixOf]
  | cons a as ih =>
    intro q r h
    cases q with
    | nil => simp at h
    | cons b bs =>
      simp only [List.cons_append, List.isPrefixOf, List.append_eq]
      rw [ih bs r (by simpa using h)]

lemma startsWithCommaPrefix_withInput (ins v : String) :
    startsWithCommaPrefix (promptWithInput ins v) = true := by
  unfold startsWithCommaPrefix promptWithInput
  simp only [String.data_append, List.append_assoc]
  rw [isPrefixOf_append_of_le _ _ _ (by decide)]
  decide

lemma startsWithCommaPrefix_instructionOnly (ins : String) :
    startsWithCommaPrefix (promptInstructionOnly ins) = false := by
  unfold startsWithCommaPrefix promptInstructionOnly
  simp only [String.data_append, List.append_assoc]
  rw [isPrefixOf_append_of_le _ _ _ (by decide)]
  decide

lemma withInput_ne_instructionOnly (ins v ins2 : String) :
    promptWithInput ins v ≠ promptInstructionOnly ins2 := by
  intro h
  have h1 := startsWithCommaPrefix_withInput ins v
  rw [h, startsWithCommaPrefix_instructionOnly ins2] at h1
  exact Bool.false_ne_true h1

/-- C8: evaluate's prompt construction produces exactly one prompt per
instruction, in order, the i-th prompt being generate_prompt of the i-th
instruction and the shared input; generate_prompt produces the with-input
template (whose fixed text carries the "### Input:" section) exactly when the
input argument is Python-truthy and otherwise produces the instruction-only
template, whose fixed text has no such section and which never coincides with
a with-input prompt. -/
theorem prompt_construction (instr : List String) (input : Option String) :
    evaluatePrompts instr input = instr.map (fun ins => generate_prompt ins input)
    ∧ (strTruthy input = true →
        ∀ ins, generate_prompt ins input = promptWithInput ins (input.getD ""))
    ∧ (strTruthy input = false →
        ∀ ins, generate_prompt ins input = promptInstructionOnly ins)
    ∧ (∀ ins v, containsInputMarker (promptWithInput ins v) = true)
    ∧ containsInputMarker (promptInstructionOnly "") = false
    ∧ (∀ ins v ins2, promptWithInput ins v ≠ promptInstructionOnly ins2) := by
  refine ⟨evaluatePrompts_eq_map instr input, ?_, ?_,
    containsInputMarker_withInput, instructionOnly_no_marker,
    withInput_ne_instructionOnly⟩
  · intro h ins
    simp [generate_prompt, h]
  · intro h ins
    simp [generate_prompt, h]

/-- C8 witness: at a concrete instruction, the None input yields the
instruction-only template and a nonempty input yields the with-input template. -/
theorem prompt_construction_witness :
    generate_prompt "Tell me about Alpacas" none
      = promptInstructionOnly "Tell me about Alpacas"
    ∧ generate_prompt "Tell me about Alpacas" (some "context")
      = promptWithInput "Tell me about Alpacas" "context" :=
  ⟨(prompt_construction [] none).2.2.1 rfl "Tell me about Alpacas",
   (prompt_construction [] (some "context")).2.1 rfl "Tell me about Alpacas"⟩

/-- C6 counterexample: code shipped by this repository does implement part of
the inference request path — the prompt construction of model.py (written by
the first notebook into the model package and set as option.entryPoint in
serving.properties) maps a concrete request input to a concrete prompt. -/
theorem inrepo_prompt_path_concrete :
    evaluatePrompts ["Tell me about Alpacas"] none
      = ["Below is an instruction that describes a task. Write a response that appropriately completes the \n        request.### Instruction: Tell me about Alpacas ### Response:"] := by
  decide

/-- C6 amended: the heavy serving logic runs in the external containers, but
the first notebook ships its own inference handler whose prompt construction
is implemented in-repo: for every instruction list and optional input, the
prompts evaluate builds are exactly the template instantiations below. -/
theorem inrepo_prompt_construction (instr : List String) (input : Option String) :
    evaluatePrompts instr input
      = instr.map fun ins =>
          if strTruthy input then promptWithInput ins (input.getD "")
          else promptInstructionOnly ins := by
  rw [evaluatePrompts_eq_map]
  rfl

/-- C7 counterexample: the repository does contain an in-repo function whose
output is a fixed deterministic mapping of its input — generate_prompt from
model.py, evaluated here at a concrete input with its concrete output. -/
theorem generate_prompt_concrete_output :
    generate_prompt "Tell me about AWS" none
      = "Below is an instruction that describes a task. Write a response that appropriately completes the \n        request.### Instruction: Tell me about AWS ### Response:" := by
  decide

/-- C7 amended: the in-repo logic of model.py is deterministic and verifiable:
two runs of generate_prompt on equal inputs are provably equal. -/
theorem generate_prompt_deterministic (ins1 ins2 : String) (inp1 inp2 : Option String)
    (h1 : ins1 = ins2) (h2 : inp1 = inp2) :
    generate_prompt ins1 inp1 = generate_prompt ins2 inp2 := by
  rw [h1, h2]

/-- C7 witness: determinism instantiated at a concrete input. -/
theorem generate_prompt_deterministic_witness :
    generate_prompt "Tell me about Alpacas" (some "context")
      = generate_prompt "Tell me about Alpacas" (some "context") :=
  generate_prompt_deterministic _ _ _ _ rfl rfl

/-! ## Exception propagation and handle control flow -/

lemma evaluate_some (env : Env) (tok : Tokenizer) (mdl : Option PyModel)
    (instrList adapters : List String) (kw : EvalKwargs) :
    evaluate env (some tok) mdl (some instrList) adapters kw
      = match env.tokenize tok (evaluatePrompts instrList kw.input) with
        | Except.error e => Except.error e
        | Except.ok batch =>
          match mdl with
          | none => Except.error PyErr.typeError
          | some m =>
            match env.generate m batch adapters genConfig kw.maxNewTokens with
            | Except.error e => Except.error e
            | Except.ok genOut => env.batchDecode tok genOut := rfl

/-- C4 counterexample: the repository does catch and transform an exception —
the function-calling notebook's setup cell catches the ValueError raised by
sagemaker.get_execution_role() and produces the iam.get_role fallback result
instead of propagating the exception. -/
theorem role_fallback_catches_valueerror :
    resolveRole (Except.error PyErr.valueError)
        (Except.ok "arn:aws:iam::716256856266:role/sagemaker_execution_role")
      = Except.ok "arn:aws:iam::716256856266:role/sagemaker_execution_role" := rfl

/-- C4 amended: the model.py functions propagate every failing external call
unchanged — load_model re-raises from either from_pretrained call, evaluate
re-raises from tokenization and from generation, and handle re-raises from
load_model and from get_as_json — while the single exception handler of the
repository, the execution-role fallback of the function-calling notebook,
catches exactly ValueError (substituting the iam.get_role result) and
propagates every other exception unchanged. -/
theorem exception_propagation :
    (∀ env modelId e, env.fromPretrainedModel modelId = Except.error e →
        load_model env modelId = Except.error e)
    ∧ (∀ env modelId m e, env.fromPretrainedModel modelId = Except.ok m →
        env.fromPretrainedTokenizer modelId = Except.error e →
        load_model env modelId = Except.error e)
    ∧ (∀ env tok mdl instrList adapters kw e,
        env.tokenize tok (evaluatePrompts instrList kw.input) = Except.error e →
        evaluate env (some tok) mdl (some instrList) adapters kw = Except.error e)
    ∧ (∀ env tok mdl instrList adapters kw tb e,
        env.tokenize tok (evaluatePrompts instrList kw.input) = Except.ok tb →
        env.generate mdl tb adapters genConfig kw.maxNewTokens = Except.error e →
        evaluate env (some tok) (some mdl) (some instrList) adapters kw = Except.error e)
    ∧ (∀ env st req e, st.model = none →
        load_model env (dictGet req.properties "model_id") = Except.error e →
        handle env st req = Except.error e)
    ∧ (∀ env st req e m, st.model = some m → req.isEmpty = false →
        req.body = Except.error e → handle env st req = Except.error e)
    ∧ (∀ fallback, resolveRole (Except.error PyErr.valueError) fallback = fallback)
    ∧ (∀ e fallback, e ≠ PyErr.valueError →
        resolveRole (Except.error e) fallback = Except.error e)
    ∧ (∀ r fallback, resolveRole (Except.ok r) fallback = Except.ok r) := by
  refine ⟨?_, ?_, ?_, ?_, ?_, ?_, fun fallback => rfl, ?_, fun r fallback => rfl⟩
  · intro env modelId e h
    unfold load_model
    rw [h]
  · intro env modelId m e h1 h2
    unfold load_model
    rw [h1, h2]
  · intro env tok mdl instrList adapters kw e h
    rw [evaluate_some, h]
  · intro env tok mdl instrList adapters kw tb e h1 h2
    rw [evaluate_some, h1]
    show (match env.generate mdl tb adapters genConfig kw.maxNewTokens with
      | Except.error e => Except.error e
      | Except.ok genOut => env.batchDecode tok genOut) = Except.error e
    rw [h2]
  · intro env st req e hm h
    unfold handle
    rw [hm]
    simp only [Option.isNone_none, if_true]
    rw [h]
  · intro env st req e m hm hempty hbody
    unfold handle
    rw [hm]
    simp only [Option.isNone_some]
    unfold handleAfterLoad
    rw [hempty, hbody]
    simp
  · intro e fallback hne
    cases e with
    | typeError => rfl
    | valueError => exact absurd rfl hne
    | sdkError msg => rfl

/-- C4 witness: a failing tokenizer call propagates out of evaluate, a failing
from_pretrained propagates out of handle, and a non-ValueError exception
propagates through the role fallback. -/
theorem exception_propagation_witness :
    evaluate envTokenizeFails (some ⟨some "[PAD]"⟩)
        (some (PyModel.base (some "huggyllama/llama-7b")))
        (some ["Tell me about Alpacas"]) ["eng_alpaca"] {}
      = Except.error (PyErr.sdkError "CUDA error")
    ∧ handle envModelLoadFails st0 req1 = Except.error (PyErr.sdkError "OSError")
    ∧ resolveRole (Except.error (PyErr.sdkError "ClientError")) (Except.ok "arn")
      = Except.error (PyErr.sdkError "ClientError") := by
  refine ⟨?_, ?_, ?_⟩
  · exact exception_propagation.2.2.1 envTokenizeFails _ _ _ _ _ _ rfl
  · exact exception_propagation.2.2.2.2.1 envModelLoadFails st0 req1 _ rfl rfl
  · exact exception_propagation.2.2.2.2.2.2.2.1 _ _ (by decide)

/-- C10: handle loads the base model and tokenizer before the empty-input
check whenever the global model is still None (so a load failure preempts even
an empty request, and an empty request still updates the globals); an empty
request returns None without the request body ever being parsed (its
get_as_json outcome is irrelevant, even a failing one); and a non-empty
request runs evaluate on the body's inputs with the adapters field defaulting
to the empty list and the parameters field defaulting to the empty dict. -/
theorem handle_flow (env : Env) (st : GlobalState) (req : Request) :
    (∀ e, st.model = none →
        load_model env (dictGet req.properties "model_id") = Except.error e →
        handle env st req = Except.error e)
    ∧ (∀ m t, st.model = none →
        load_model env (dictGet req.properties "model_id") = Except.ok (m, t) →
        req.isEmpty = true →
        handle env st req = Except.ok ({ model := some m, tokenizer := some t }, none))
    ∧ (∀ m, st.model = some m → req.isEmpty = true →
        handle env st req = Except.ok (st, none))
    ∧ (∀ m t json, st.model = none →
        load_model env (dictGet req.properties "model_id") = Except.ok (m, t) →
        req.isEmpty = false → req.body = Except.ok json →
        handle env st req =
          (evaluate env (some t) (some m) json.inputs (json.adapters.getD [])
              (json.parameters.getD {})).map
            fun outputs => (({ model := some m, tokenizer := some t } : GlobalState),
              some outputs))
    ∧ (∀ m json, st.model = some m → req.isEmpty = false → req.body = Except.ok json →
        handle env st req =
          (evaluate env st.tokenizer st.model json.inputs (json.adapters.getD [])
              (json.parameters.getD {})).map fun outputs => (st, some outputs)) := by
  refine ⟨?_, ?_, ?_, ?_, ?_⟩
  · intro e hm h
    unfold handle
    rw [hm]
    simp only [Option.isNone_none, if_true]
    rw [h]
  · intro m t hm h hempty
    unfold handle
    rw [hm]
    simp only [Option.isNone_none, if_true]
    rw [h]
    unfold handleAfterLoad
    rw [hempty]
    simp
  · intro m hm hempty
    unfold handle
    rw [hm]
    simp only [Option.isNone_some]
    unfold handleAfterLoad
    rw [hempty]
    simp
  · intro m t json hm h hempty hbody
    unfold handle
    rw [hm]
    simp only [Option.isNone_none, if_true]
    rw [h]
    unfold handleAfterLoad
    rw [hempty, hbody]
    cases hev : evaluate env (some t) (some m) json.inputs (json.adapters.getD [])
        (json.parameters.getD {}) with
    | error e => simp [hev, Except.map]
    | ok outputs => simp [hev, Except.map]
  · intro m json hm hempty hbody
    unfold handle
    rw [hm]
    simp only [Option.isNone_some]
    unfold handleAfterLoad
    rw [hempty, hbody, hm]
    cases hev : evaluate env st.tokenizer (some m) json.inputs (json.adapters.getD [])
        (json.parameters.getD {}) with
    | error e => simp [hev, Except.map]
    | ok outputs => simp [hev, Except.map]

/-- C10 witness: each branch of handle instantiated on concrete fixtures —
a failing load preempts the empty request, an empty request loads the globals
and returns None (its unreadable body untouched), an already-loaded empty
request returns None, and non-empty requests run evaluate with the defaulted
adapters and parameters. -/
theorem handle_flow_witness :
    handle envModelLoadFails st0 req0 = Except.error (PyErr.sdkError "OSError")
    ∧ handle envEcho st0 req0
      = Except.ok (⟨some (PyModel.base (some "huggyllama/llama-7b")), some ⟨some "</s>"⟩⟩, none)
    ∧ handle envEcho st1 req0 = Except.ok (st1, none)
    ∧ handle envEcho st0 req1
      = Except.ok (⟨some (PyModel.base (some "huggyllama/llama-7b")), some ⟨some "</s>"⟩⟩,
          some [promptInstructionOnly "Tell me about Alpacas"])
    ∧ handle envEcho st1 req1
      = Except.ok (st1, some [promptInstructionOnly "Tell me about Alpacas"]) := by
  refine ⟨?_, ?_, ?_, ?_, ?_⟩
  · exact (handle_flow envModelLoadFails st0 req0).1 _ rfl rfl
  · exact (handle_flow envEcho st0 req0).2.1 _ _ rfl rfl rfl
  · exact (handle_flow envEcho st1 req0).2.2.1 _ rfl rfl
  · exact (handle_flow envEcho st0 req1).2.2.2.1 _ _ _ rfl rfl rfl rfl
  · exact (handle_flow envEcho st1 req1).2.2.2.2 _ _ rfl rfl rfl
